import Mathlib

/-!
Verification of the core of `clarity` (car-cabin acoustic scene composer and
signal I/O layer) against its specification.

The relevant Python code is shallowly embedded:

* `recipes/cad1/task2/baseline/car_scene_acoustics.py` — the class
  `CarSceneAcoustics`; numpy 2-D buffers become a small `NpArray` type
  (dimensions plus an indexing function into `ℚ` values), numpy/scipy
  calls become Lean functions, and fallible Python calls (attribute and
  index errors) return `Except PyErr`.
* `clarity/utils/file_io.py` — only its tests are in the repository, so
  the reader/writer pair is modelled from the specification text
  (each such definition's doc comment starts with `Modelled from the spec:`).

External library collaborators (pyloudnorm's meter and normalizer, the car
noise generator, scipy's `lfilter`) are treated as the spec treats them:
narrow interfaces, either abstracted into function parameters or given the
semantics the spec assigns them.
-/

namespace Clarity

/-- Python runtime errors that the embedded code can raise. -/
inductive PyErr where
  | attributeError
  | indexError
  | valueError
deriving DecidableEq, Repr

/-- A numpy real-valued array of one or two dimensions, as used by
`CarSceneAcoustics`: the shape plus a total indexing function
(indices outside the shape are irrelevant to every claim). -/
inductive NpArray where
  | oneD (n : Nat) (data : Nat → ℚ)
  | twoD (r : Nat) (c : Nat) (data : Nat → Nat → ℚ)

/-- `a.shape` as the Python tuple. -/
def NpArray.shape : NpArray → List Nat
  | .oneD n _ => [n]
  | .twoD r c _ => [r, c]

/-- Indexing the shape tuple, `a.shape[i]`: out-of-range tuple indexing
raises an `IndexError` in Python. -/
def NpArray.shapeGet (a : NpArray) (i : Nat) : Except PyErr Nat :=
  match a.shape.get? i with
  | some v => Except.ok v
  | none => Except.error PyErr.indexError

/-- `a.T`: numpy transposition; the transpose of a 1-D array is itself. -/
def NpArray.transpose : NpArray → NpArray
  | .oneD n d => .oneD n d
  | .twoD r c d => .twoD c r (fun i j => d j i)

/-- Element access for 2-D arrays (`a[i, j]`); returns 0 on a 1-D array,
which no claim exercises. -/
def NpArray.at2 : NpArray → Nat → Nat → ℚ
  | .oneD _ d, _, j => d j
  | .twoD _ _ d, i, j => d i j

/-- Whether the array is one-dimensional. -/
def NpArray.isOneD : NpArray → Bool
  | .oneD _ _ => true
  | .twoD _ _ _ => false

/-- `pyln.normalize.loudness(signal, current, target)` of the external
pyloudnorm library: renormalizes the buffer from its current to the target
integrated loudness by a scalar gain, preserving the shape. The gain value
is abstracted into the parameter `gain` (a function of the current and
target LUFS); the spec treats the meter and normalizer as a black box. -/
def normalizeLoudness (gain : ℚ → ℚ → ℚ) (a : NpArray) (current target : ℚ) : NpArray :=
  match a with
  | .oneD n d => .oneD n (fun i => d i * gain current target)
  | .twoD r c d => .twoD r c (fun i j => d i j * gain current target)

/-- `CarSceneAcoustics.scale_signal_to_snr(signal, reference_signal, snr)`,
embedded line by line from the source:

* line 238 evaluates `reference_signal.shape[0] < reference_signal.shape[1]`
  unconditionally: on `None` the attribute access raises `AttributeError`,
  and on a 1-D array `shape[1]` raises `IndexError`; otherwise the
  reference is transposed when `shape[0] < shape[1]`;
* line 240 does the same for `signal`;
* the reference loudness is `0.0` when `reference_signal is None`
  (unreachable, since line 238 already raised), else its metered loudness;
* the signal is normalized from its metered loudness to
  `reference loudness + snr`;
* line 259 returns `normalised_signal.T` unconditionally.

`integrated_loudness` abstracts `self.loudness_meter.integrated_loudness`
and `gain` abstracts the normalizer's scalar gain. -/
def scale_signal_to_snr (integrated_loudness : NpArray → ℚ) (gain : ℚ → ℚ → ℚ)
    (signal : NpArray) (reference_signal : Option NpArray) (snr : ℚ) :
    Except PyErr NpArray := do
  let rs ← match reference_signal with
    | none => Except.error PyErr.attributeError
    | some rs => Except.ok rs
  let r0 ← rs.shapeGet 0
  let r1 ← rs.shapeGet 1
  let rs := if r0 < r1 then rs.transpose else rs
  let s0 ← signal.shapeGet 0
  let s1 ← signal.shapeGet 1
  let signal := if s0 < s1 then signal.transpose else signal
  let ref_signal_lufs : ℚ :=
    match reference_signal with
    | none => 0
    | some _ => integrated_loudness rs
  let signal_lufs := integrated_loudness signal
  let target_lufs := ref_signal_lufs + snr
  let normalised_signal := normalizeLoudness gain signal signal_lufs target_lufs
  return normalised_signal.transpose

/-- `CarSceneAcoustics.add_two_signals(signal1, signal2)`: truncates both
2-D buffers to `min_length = min(signal1.shape[1], signal2.shape[1])` on the
sample axis and adds them element-wise. The numpy `+` on equal shapes is
element-wise addition; a 1-D argument would fail at `shape[1]`, and numpy
broadcasting across differing channel counts is outside every claim and is
embedded as a `ValueError`. -/
def add_two_signals : NpArray → NpArray → Except PyErr NpArray
  | .twoD r1 c1 d1, .twoD r2 c2 d2 =>
      if r1 = r2 then
        Except.ok (.twoD r1 (min c1 c2) (fun i j => d1 i j + d2 i j))
      else
        Except.error PyErr.valueError
  | _, _ => Except.error PyErr.indexError

/-- One-sample delay of a signal (zero before time 0): the state advance of
a FIR delay line. -/
def delay (x : Nat → ℚ) : Nat → ℚ :=
  fun n => if n = 0 then 0 else x (n - 1)

/-- `scipy.signal.lfilter(b, 1, x)` of the external scipy library, sample
by sample: causal FIR filtering with numerator `b` and all-pass denominator
`1`, output length equal to input length (the caller evaluates only indices
below the input length). Defined recursively on the filter taps: the head
tap scales the current sample and the tail acts on the delayed signal. -/
def lfilter : List ℚ → (Nat → ℚ) → Nat → ℚ
  | [], _, _ => 0
  | b :: bs, x, n => b * x n + lfilter bs (delay x) n

/-- The textbook causal convolution sum `y[n] = Σ_{k ≤ n} b[k]·x[n-k]`
(over the taps of `b`), the spec's phrasing of causal FIR filtering. -/
def causalFIRSum (b : List ℚ) (x : Nat → ℚ) (n : Nat) : ℚ :=
  ∑ k ∈ Finset.range b.length, b.getD k 0 * (if k ≤ n then x (n - k) else 0)

/-- The six anechoic head-related impulse responses preloaded by
`preload_anechoic_hrtf` (`self.hrir_values`): the left- and right-ear
responses for the 0°, −90° and +90° directions, each a finite tap list
read from a WAV file. -/
structure AnechoicHrir where
  hr000_left : List ℚ
  hr000_right : List ℚ
  hrm90_left : List ℚ
  hrm90_right : List ℚ
  hrp90_left : List ℚ
  hrp90_right : List ℚ

/-- `CarSceneAcoustics.add_anechoic_hrtf(noise_signal)` for a 3×`N` noise
buffer `noise` (row 0 engine, row 1 first noise source, row 2 second noise
source, each a sample sequence): filters each row with the left- and
right-ear impulse response of its direction via `lfilter(·, 1, ·)`,
accumulating with `+=` into the two ear channels, and returns
`np.stack([out_left, our_right], axis=0)`, a 2×`N` buffer. -/
def add_anechoic_hrtf (h : AnechoicHrir) (N : Nat) (noise : Nat → Nat → ℚ) : NpArray :=
  let out_left := fun n => lfilter h.hr000_left (noise 0) n
  let our_right := fun n => lfilter h.hr000_right (noise 0) n
  let out_left := fun n => out_left n + lfilter h.hrm90_left (noise 1) n
  let our_right := fun n => our_right n + lfilter h.hrm90_right (noise 1) n
  let out_left := fun n => out_left n + lfilter h.hrp90_left (noise 2) n
  let our_right := fun n => our_right n + lfilter h.hrp90_right (noise 2) n
  .twoD 2 N (fun i n => if i = 0 then out_left n else our_right n)

/-- `CarSceneAcoustics.get_car_noise(car_noise_params)`: a single call to
the external generator `self.carnoise.generate_car_noise` with
`noise_parameters` forwarded, `number_noise_sources=2` and
`commonness_factor=0`, returning its result unchanged. The generator is
abstracted into the parameter `generate_car_noise` (noise parameters,
number of noise sources, commonness factor → noise buffer). -/
def get_car_noise {Params Noise : Type} (generate_car_noise : Params → Nat → ℚ → Noise)
    (car_noise_params : Params) : Noise :=
  generate_car_noise car_noise_params 2 0

/-- The state a `CarSceneAcoustics` instance holds after `__init__` that
the claims are about: the stored (extended) track duration, the sample
rate, and the duration and sample rate the `CarNoiseSignalGenerator`
collaborator was constructed with. -/
structure CarScene where
  track_duration : ℚ
  sample_rate : Nat
  carnoise_duration_secs : ℚ
  carnoise_sample_rate : Nat

/-- The default of the `extend_noise` argument of
`CarSceneAcoustics.__init__` (`0.2`). -/
def default_extend_noise : ℚ := 2 / 10

/-- `CarSceneAcoustics.__init__(track_duration, sample_rate, ..., extend_noise)`:
stores `self.track_duration = track_duration * (1 + extend_noise)` and
constructs the car-noise generator with
`duration_secs=self.track_duration, sample_rate=self.sample_rate`.
No other method of the class ever assigns `self.track_duration`, so in the
embedding every instance is this immutable record. -/
def CarScene.init (track_duration : ℚ) (sample_rate : Nat) (extend_noise : ℚ) : CarScene :=
  let td := track_duration * (1 + extend_noise)
  { track_duration := td
    sample_rate := sample_rate
    carnoise_duration_secs := td
    carnoise_sample_rate := sample_rate }

/-! ## Signal I/O layer

`clarity/utils/file_io.py` is not part of the sources at hand — only its
tests are — so `write_signal`/`read_signal` are modelled from the
specification of §4.7, with signals in sample-major orientation as lists of
frames (each frame one rational value per channel). -/

/-- Modelled from the spec: the 16-bit full-scale value by which samples
are scaled on the lossy integer path (missing `clarity/utils/file_io.py`). -/
def fullScale : ℤ := 32768

/-- Modelled from the spec: lossy 16-bit quantization of one sample on the
`floating_point=False` write path — "converts to 16-bit integer PCM by
scaling by the format's full-scale value and rounding" (missing
`clarity/utils/file_io.py`). -/
def quantize (x : ℚ) : ℤ := round (x * 32768)

/-- Modelled from the spec: the `strict=False` policy on out-of-range
samples — "values are truncated/wrapped per the underlying integer cast";
the wrap of a two's-complement 16-bit cast is the documented policy choice
(spec §9) (missing `clarity/utils/file_io.py`). -/
def int16Wrap (q : ℤ) : ℤ := (q + 32768) % 65536 - 32768

/-- Whether a scaled sample exceeds the representable 16-bit range. -/
def clips (q : ℤ) : Prop := q > 32767 ∨ q < -32768

instance clips.decidable (q : ℤ) : Decidable (clips q) := by
  unfold clips
  infer_instance

/-- Modelled from the spec: one quantized sample under `strict=True`,
failing with a value error when the scaled value would clip (missing
`clarity/utils/file_io.py`). -/
def writeSampleStrict (x : ℚ) : Except String ℤ :=
  if clips (quantize x) then Except.error "Signal out of range" else Except.ok (quantize x)

/-- The stored sample data of a WAV file: 16-bit integer PCM or 32-bit
floating point, sample-major (one inner list per frame). -/
inductive WavData where
  | pcm16 (frames : List (List ℤ))
  | float32 (frames : List (List ℚ))

/-- A WAV file as the I/O layer sees it: the header's sample rate and
channel count and the sample data. -/
structure WavFile where
  sample_rate : Nat
  n_channels : Nat
  data : WavData

/-- `Except`-valued map over a list, failing on the first failing element
(the monadic `mapM` specialized so proofs can recurse on it directly). -/
def mapME {α β : Type} (f : α → Except String β) : List α → Except String (List β)
  | [] => Except.ok []
  | a :: as =>
    match f a, mapME f as with
    | Except.error e, _ => Except.error e
    | Except.ok _, Except.error e => Except.error e
    | Except.ok b, Except.ok bs => Except.ok (b :: bs)

/-- Modelled from the spec: `write_signal(path, signal, sample_rate,
floating_point, strict)` (missing `clarity/utils/file_io.py`) —
`floating_point=True` writes 32-bit float PCM directly; otherwise the
signal is quantized to 16-bit integers, and under `strict=True` the write
fails with a value error, producing no file, as soon as any sample clips,
while under `strict=False` every sample is cast with silent wrapping.
The file records the sample rate and the channel count (the frame width). -/
def write_signal (signal : List (List ℚ)) (sample_rate : Nat)
    (floating_point : Bool) (strict : Bool) : Except String WavFile :=
  if floating_point then
    Except.ok ⟨sample_rate, (signal.headD []).length, WavData.float32 signal⟩
  else if strict then
    match mapME (mapME writeSampleStrict) signal with
    | Except.error e => Except.error e
    | Except.ok frames =>
        Except.ok ⟨sample_rate, (signal.headD []).length, WavData.pcm16 frames⟩
  else
    Except.ok ⟨sample_rate, (signal.headD []).length,
      WavData.pcm16 (signal.map (fun fr => fr.map (fun x => int16Wrap (quantize x))))⟩

/-- Modelled from the spec: decoding one stored frame to floating point —
integer PCM is scaled into `[-1, 1]` by the full-scale value, float data is
returned unchanged (missing `clarity/utils/file_io.py`). -/
def decodeFrames : WavData → List (List ℚ)
  | WavData.pcm16 frames => frames.map (fun fr => fr.map (fun q : ℤ => (q : ℚ) / 32768))
  | WavData.float32 frames => frames

/-- Modelled from the spec: `read_signal(path, sample_rate, n_channels,
offset, offset_is_samples)` (missing `clarity/utils/file_io.py`) —
validates the requested sample rate and channel count against the file
header (a `none` request skips the check, as the tests read files of 2
channels or unspecified rate with the defaults), converts the stored data
to floating point, and drops `offset` leading frames, where `offset` is a
sample count when `offset_is_samples` and otherwise a time in seconds
converted by rounding at the file's sample rate. Resampling
(`allow_resample=True` with differing rates) is outside the claims and is
not modelled. -/
def read_signal (file : WavFile) (sample_rate : Option Nat) (n_channels : Option Nat)
    (offset : ℚ) (offset_is_samples : Bool) : Except String (List (List ℚ)) :=
  let rateOk := match sample_rate with
    | none => true
    | some r => decide (r = file.sample_rate)
  let channelsOk := match n_channels with
    | none => true
    | some nc => decide (nc = file.n_channels)
  if rateOk = false then Except.error "Sample rate mismatch"
  else if channelsOk = false then Except.error "Channel count mismatch"
  else
    let nOffset : Nat :=
      if offset_is_samples then (round offset).toNat
      else (round (offset * file.sample_rate)).toNat
    Except.ok ((decodeFrames file.data).drop nOffset)

/-! ## Theorems -/

/-- The recursive delay-line form of FIR filtering computes the causal
convolution sum `y[n] = Σ_{k ≤ n} b[k]·x[n-k]`. -/
theorem lfilter_eq_causalFIRSum (b : List ℚ) (x : Nat → ℚ) (n : Nat) :
    lfilter b x n = causalFIRSum b x n := by
  induction b generalizing x with
  | nil => simp [lfilter, causalFIRSum]
  | cons c cs ih =>
    rw [lfilter, ih, causalFIRSum, causalFIRSum, List.length_cons,
      Finset.sum_range_succ']
    simp only [List.getD_cons_succ, List.getD_cons_zero, Nat.zero_le, if_pos,
      Nat.sub_zero]
    rw [add_comm]
    congr 1
    apply Finset.sum_congr rfl
    intro k _
    congr 1
    by_cases hkn : k + 1 ≤ n
    · have h1 : k ≤ n := Nat.le_of_succ_le hkn
      have h2 : ¬ (n - k = 0) := by omega
      simp only [hkn, if_pos, h1, delay, h2, if_neg]
      congr 1
    · by_cases hk2 : k ≤ n
      · have hk : k = n := by omega
        subst hk
        simp [delay, hkn]
      · simp [hkn, hk2]

/-- When `f` succeeds on every element of `l`, `mapME f` succeeds with the
pointwise results. -/
theorem mapME_eq_map {α β : Type} (f : α → Except String β) (g : α → β) (l : List α)
    (h : ∀ a ∈ l, f a = Except.ok (g a)) : mapME f l = Except.ok (l.map g) := by
  induction l with
  | nil => rfl
  | cons a as ih =>
    have ha := h a (List.mem_cons_self a as)
    have has : ∀ x ∈ as, f x = Except.ok (g x) :=
      fun x hx => h x (List.mem_cons_of_mem a hx)
    simp [mapME, ha, ih has]

/-- When `f` fails on some element of `l`, `mapME f l` fails. -/
theorem mapME_error_of_mem {α β : Type} (f : α → Except String β) (l : List α)
    (a : α) (ha : a ∈ l) (e : String) (hfa : f a = Except.error e) :
    ∃ e2, mapME f l = Except.error e2 := by
  induction l with
  | nil => cases ha
  | cons b bs ih =>
    rcases List.mem_cons.mp ha with hb | hb
    · subst hb
      exact ⟨e, by simp [mapME, hfa]⟩
    · rcases ih hb with ⟨e2, he2⟩
      cases hfb : f b with
      | error e3 => exact ⟨e3, by simp [mapME, hfb]⟩
      | ok v => exact ⟨e2, by simp [mapME, hfb, he2]⟩

/-- 16-bit quantize-then-dequantize moves a sample by at most half a
quantization step, which is below the 1/16384 tolerance. -/
theorem quantize_dequantize_close (x : ℚ) :
    |x - (quantize x : ℚ) / 32768| ≤ 1 / 16384 := by
  have h := abs_sub_round (x * 32768)
  have heq : x - (quantize x : ℚ) / 32768 =
      (x * 32768 - (round (x * 32768) : ℚ)) / 32768 := by
    unfold quantize
    field_simp
  rw [heq, abs_div]
  have h32 : |(32768 : ℚ)| = 32768 := by norm_num
  rw [h32, div_le_iff₀ (by norm_num : (0 : ℚ) < 32768)]
  calc |x * 32768 - (round (x * 32768) : ℚ)| ≤ 1 / 2 := h
    _ ≤ 1 / 16384 * 32768 := by norm_num

/-- C5: writing a non-clipping signal on the lossy 16-bit path with
`strict=True` and reading the file back succeeds and reproduces the signal
frame by frame and sample by sample within 1/16384 (so in particular with
the same shape). -/
theorem write_read_loop_close (signal : List (List ℚ)) (sr : Nat)
    (_hrange : ∀ fr ∈ signal, ∀ x ∈ fr, -1 ≤ x ∧ x ≤ 1)
    (hnoclip : ∀ fr ∈ signal, ∀ x ∈ fr, ¬ clips (quantize x)) :
    ∃ file out,
      write_signal signal sr false true = Except.ok file ∧
      read_signal file (some sr) none 0 true = Except.ok out ∧
      List.Forall₂ (fun fr fr2 =>
        List.Forall₂ (fun x y => |x - y| ≤ 1 / 16384) fr fr2) signal out := by
  have hw : mapME (mapME writeSampleStrict) signal =
      Except.ok (signal.map (fun fr => fr.map quantize)) := by
    apply mapME_eq_map
    intro fr hfr
    apply mapME_eq_map
    intro x hx
    unfold writeSampleStrict
    rw [if_neg (hnoclip fr hfr x hx)]
  refine ⟨⟨sr, (signal.headD []).length,
      WavData.pcm16 (signal.map (fun fr => fr.map quantize))⟩,
    decodeFrames (WavData.pcm16 (signal.map (fun fr => fr.map quantize))), ?_, ?_, ?_⟩
  · simp [write_signal, hw]
  · simp [read_signal]
  · have hdec : decodeFrames (WavData.pcm16 (signal.map (fun fr => fr.map quantize))) =
        (signal.map (fun fr => fr.map quantize)).map
          (fun fr => fr.map (fun q : ℤ => (q : ℚ) / 32768)) := rfl
    rw [hdec, List.map_map, List.forall₂_map_right_iff, List.forall₂_same]
    intro fr hfr
    show List.Forall₂ _ fr ((fr.map quantize).map (fun q : ℤ => (q : ℚ) / 32768))
    rw [List.map_map, List.forall₂_map_right_iff, List.forall₂_same]
    intro x _
    exact quantize_dequantize_close x

/-- Witness for C5 at the test's 5-sample signal
`[0.1, -0.2, 0.1, -0.5, 0.99]` (one channel per frame) at 16000 Hz. -/
theorem write_read_loop_close_witness :
    ∃ file out,
      write_signal [[1/10], [-1/5], [1/10], [-1/2], [99/100]] 16000 false true =
        Except.ok file ∧
      read_signal file (some 16000) none 0 true = Except.ok out ∧
      List.Forall₂ (fun fr fr2 =>
        List.Forall₂ (fun x y => |x - y| ≤ 1 / 16384) fr fr2)
        [[1/10], [-1/5], [1/10], [-1/2], [99/100]] out :=
  write_read_loop_close [[1/10], [-1/5], [1/10], [-1/2], [99/100]] 16000
    (by norm_num) (by norm_num [clips, quantize, round_eq])

/-- C6: a signal with a sample whose scaled value exceeds the 16-bit range
makes `write_signal` with `floating_point=False, strict=True` fail with a
value error, producing no file, while the same write with `strict=False`
succeeds (with silent clipping). -/
theorem write_clipping_strict_fails (signal : List (List ℚ)) (sr : Nat)
    (h : ∃ fr ∈ signal, ∃ x ∈ fr, clips (quantize x)) :
    (∃ e, write_signal signal sr false true = Except.error e) ∧
    (∃ file, write_signal signal sr false false = Except.ok file) := by
  constructor
  · rcases h with ⟨fr, hfr, x, hx, hclip⟩
    have hx_err : writeSampleStrict x = Except.error "Signal out of range" := by
      unfold writeSampleStrict
      rw [if_pos hclip]
    rcases mapME_error_of_mem writeSampleStrict fr x hx _ hx_err with ⟨e2, he2⟩
    rcases mapME_error_of_mem (mapME writeSampleStrict) signal fr hfr e2 he2 with ⟨e3, he3⟩
    exact ⟨e3, by simp [write_signal, he3]⟩
  · exact ⟨_, rfl⟩

/-- Witness for C6 at the test's all-2.0 signal of 10 frames × 2 channels. -/
theorem write_clipping_strict_fails_witness :
    (∃ e, write_signal (List.replicate 10 [2, 2]) 16000 false true = Except.error e) ∧
    (∃ file, write_signal (List.replicate 10 [2, 2]) 16000 false false = Except.ok file) :=
  write_clipping_strict_fails (List.replicate 10 [2, 2]) 16000
    ⟨[2, 2], List.mem_replicate.mpr ⟨by norm_num, rfl⟩, 2, by norm_num,
      by norm_num [clips, quantize, round_eq]⟩

/-- Evaluation of `read_signal` when neither the sample rate nor the
channel count is requested: the decoded frames after the offset. -/
theorem read_signal_none_eval (file : WavFile) (offset : ℚ) (isS : Bool) :
    read_signal file none none offset isS =
      Except.ok ((decodeFrames file.data).drop
        (if isS then (round offset).toNat
         else (round (offset * (file.sample_rate : ℚ))).toNat)) := rfl

/-- C7: reading a 10-frame, 2-channel PCM file at 10000 Hz with `offset=3`
samples returns 7 frames of 2 channels, and reading it with
`offset=0.0003` seconds (3/10000, ≈3 samples at 10000 Hz) also returns 7
frames of 2 channels. -/
theorem read_signal_offset_shapes (nch : Nat) (frames : List (List ℤ))
    (hlen : frames.length = 10) (hwidth : ∀ fr ∈ frames, fr.length = 2) :
    (∃ out, read_signal ⟨10000, nch, WavData.pcm16 frames⟩ none none 3 true =
        Except.ok out ∧ out.length = 7 ∧ ∀ fr ∈ out, fr.length = 2) ∧
    (∃ out, read_signal ⟨10000, nch, WavData.pcm16 frames⟩ none none (3/10000) false =
        Except.ok out ∧ out.length = 7 ∧ ∀ fr ∈ out, fr.length = 2) := by
  have hdec : decodeFrames (WavData.pcm16 frames) =
      frames.map (fun fr => fr.map (fun q : ℤ => (q : ℚ) / 32768)) := rfl
  have hkey : ((decodeFrames (WavData.pcm16 frames)).drop 3).length = 7 ∧
      ∀ fr ∈ (decodeFrames (WavData.pcm16 frames)).drop 3, fr.length = 2 := by
    constructor
    · rw [List.length_drop, hdec, List.length_map, hlen]
    · intro fr hfr
      have hfr2 := List.mem_of_mem_drop hfr
      rw [hdec] at hfr2
      rcases List.mem_map.mp hfr2 with ⟨fr0, hfr0, hmap⟩
      rw [← hmap, List.length_map]
      exact hwidth fr0 hfr0
  constructor
  · refine ⟨(decodeFrames (WavData.pcm16 frames)).drop 3, ?_, hkey⟩
    rw [read_signal_none_eval]
    norm_num [round_eq, Int.toNat_ofNat]
    rfl
  · refine ⟨(decodeFrames (WavData.pcm16 frames)).drop 3, ?_, hkey⟩
    rw [read_signal_none_eval]
    norm_num [round_eq, Int.toNat_ofNat]
    rfl

/-- Witness for C7 at the concrete file holding ten frames of the sample
pair (16384, 16384) (the test's 0.5 signal quantized) at 10000 Hz. -/
theorem read_signal_offset_shapes_witness :
    (∃ out, read_signal ⟨10000, 2, WavData.pcm16 (List.replicate 10 [16384, 16384])⟩
        none none 3 true = Except.ok out ∧ out.length = 7 ∧ ∀ fr ∈ out, fr.length = 2) ∧
    (∃ out, read_signal ⟨10000, 2, WavData.pcm16 (List.replicate 10 [16384, 16384])⟩
        none none (3/10000) false = Except.ok out ∧ out.length = 7 ∧
        ∀ fr ∈ out, fr.length = 2) :=
  read_signal_offset_shapes 2 (List.replicate 10 [16384, 16384]) (by decide) (by decide)

/-- C1: the claim (and the function's own docstring) says that with
`reference_signal=None` the reference loudness defaults to 0 LUFS and the
call succeeds; in fact line 238 evaluates `reference_signal.shape`
unconditionally, so every call with `reference_signal=None` raises an
`AttributeError` before the `None` default is ever consulted. -/
theorem scale_signal_to_snr_none_reference_raises
    (il : NpArray → ℚ) (g : ℚ → ℚ → ℚ) (signal : NpArray) (snr : ℚ) :
    scale_signal_to_snr il g signal none snr = Except.error PyErr.attributeError := rfl

/-- C2: the claim says the returned buffer always has the caller's original
shape; in fact line 259 returns `normalised_signal.T` unconditionally, so a
5×2 signal (transpose heuristic does not fire, since 5 ≥ 2) with a 5×2
reference comes back with shape 2×5, not the original 5×2. -/
theorem scale_signal_to_snr_not_original_orientation :
    Except.map NpArray.shape
        (scale_signal_to_snr (fun _ => 0) (fun _ _ => 1)
          (NpArray.twoD 5 2 fun _ _ => 1) (some (NpArray.twoD 5 2 fun _ _ => 1)) 0) =
      Except.ok [2, 5] ∧ [2, 5] ≠ [5, 2] :=
  ⟨rfl, by decide⟩

/-- C3: for two 2-D buffers with the same channel count, `add_two_signals`
returns a buffer truncated on the sample axis to the minimum of the two
sample counts whose element `[c][i]` is the sum `a[c][i] + b[c][i]`; in
particular two 2-channel buffers of 5 and 3 samples yield a 3-sample
result. -/
theorem add_two_signals_truncates_and_sums :
    (∀ (r c1 c2 : Nat) (d1 d2 : Nat → Nat → ℚ),
        add_two_signals (NpArray.twoD r c1 d1) (NpArray.twoD r c2 d2) =
          Except.ok (NpArray.twoD r (min c1 c2) (fun i j => d1 i j + d2 i j))) ∧
    Except.map NpArray.shape
        (add_two_signals (NpArray.twoD 2 5 fun _ _ => 1)
          (NpArray.twoD 2 3 fun _ _ => 2)) = Except.ok [2, 3] := by
  constructor
  · intro r c1 c2 d1 d2
    simp [add_two_signals]
  · rfl

/-- C4: `add_anechoic_hrtf` on a 3×N noise buffer returns a 2×N buffer
whose left channel is the sum, over the three directional rows, of the
causal FIR filtering of that row with the left-ear impulse response for
its direction, and whose right channel is the analogous sum with the
right-ear impulse responses. -/
theorem add_anechoic_hrtf_convolves_and_sums
    (h : AnechoicHrir) (N : Nat) (noise : Nat → Nat → ℚ) :
    (add_anechoic_hrtf h N noise).shape = [2, N] ∧
    ∀ n : Nat,
      (add_anechoic_hrtf h N noise).at2 0 n =
        causalFIRSum h.hr000_left (noise 0) n + causalFIRSum h.hrm90_left (noise 1) n +
          causalFIRSum h.hrp90_left (noise 2) n ∧
      (add_anechoic_hrtf h N noise).at2 1 n =
        causalFIRSum h.hr000_right (noise 0) n + causalFIRSum h.hrm90_right (noise 1) n +
          causalFIRSum h.hrp90_right (noise 2) n := by
  refine ⟨rfl, fun n => ⟨?_, ?_⟩⟩
  · simp [add_anechoic_hrtf, NpArray.at2, lfilter_eq_causalFIRSum]
  · simp [add_anechoic_hrtf, NpArray.at2, lfilter_eq_causalFIRSum]

/-- C8: `scale_signal_to_snr` reads `shape[1]` of both arguments
unconditionally, so whenever the signal or the (supplied) reference is
1-D the call fails with an `IndexError`: the interface in effect requires
both arguments to be 2-D. -/
theorem scale_signal_to_snr_oneD_index_error
    (il : NpArray → ℚ) (g : ℚ → ℚ → ℚ) (signal rs : NpArray) (snr : ℚ)
    (h : signal.isOneD = true ∨ rs.isOneD = true) :
    scale_signal_to_snr il g signal (some rs) snr = Except.error PyErr.indexError := by
  cases rs with
  | oneD n d => rfl
  | twoD r c d =>
    cases signal with
    | oneD m e => rfl
    | twoD r2 c2 e => simp [NpArray.isOneD] at h

/-- Witness for C8 at a concrete 1-D signal and 2-D reference. -/
theorem scale_signal_to_snr_oneD_index_error_witness :
    scale_signal_to_snr (fun _ => 0) (fun _ _ => 1) (NpArray.oneD 3 fun _ => 1)
      (some (NpArray.twoD 2 5 fun _ _ => 1)) 0 = Except.error PyErr.indexError :=
  scale_signal_to_snr_oneD_index_error _ _ _ _ _ (Or.inl rfl)

/-- C9: `get_car_noise` calls the external car-noise generator with
`number_noise_sources` fixed to 2 and `commonness_factor` fixed to 0 and
returns its result unchanged; neither value can be varied through the
method's interface. -/
theorem get_car_noise_fixed_arguments {Params Noise : Type}
    (generate_car_noise : Params → Nat → ℚ → Noise) (p : Params) :
    get_car_noise generate_car_noise p = generate_car_noise p 2 0 := rfl

/-- C10: after `__init__` with track duration `d` and extension factor `e`
(default 0.2), the stored `track_duration` is `d * (1 + e)` and the
car-noise generator is constructed with exactly that extended duration;
the embedding is an immutable record because no method of the class
reassigns `track_duration`. -/
theorem init_track_duration_extended (d : ℚ) (sr : Nat) (e : ℚ) :
    (CarScene.init d sr e).track_duration = d * (1 + e) ∧
    (CarScene.init d sr e).carnoise_duration_secs = (CarScene.init d sr e).track_duration ∧
    (CarScene.init d sr default_extend_noise).track_duration = d * (1 + 2 / 10) :=
  ⟨rfl, rfl, rfl⟩

end Clarity
